import Mathlib

/-!
Shallow embedding of `src/qt/walletview.cpp` (class `WalletView`) from the
sinovate wallet GUI. The file is Qt glue: it routes user actions to dialogs
and forwards model notifications into UI updates. External collaborators
(the wallet backend, the node interface, the PSBT codec, Qt dialogs) are
opaque: they are modelled as fields of explicit environment structures, and
each method is translated as a pure function from its environment to a
trace of observable effects (messages emitted, dialogs opened, backend
calls made) or to an updated widget state.
-/

namespace WalletView

/-- Message severity constants of `CClientUIInterface` used in this file. -/
inductive MsgLevel where
  | MSG_ERROR
  | MSG_INFORMATION
deriving DecidableEq, Repr

/-- A message emitted through `Q_EMIT message(title, body, level)`. -/
structure Message where
  title : String
  body : String
  level : MsgLevel
deriving DecidableEq, Repr

/-- Qt translation `tr`: the identity on the source-language string. -/
def tr (s : String) : String := s

/-- The decoded partially signed transaction handed to
`PSBTOperationsDialog::openWithPSBT`; its contents are opaque here. -/
structure PartiallySignedTransaction where
  id : Nat
deriving DecidableEq, Repr

/-- Observable effects of `WalletView::gotoLoadPSBT`, in program order. -/
inductive Event where
  | readClipboard
  | calledDecodeBase64 (input : String)
  | readFile (filename : String)
  | calledDecodeRawPSBT (data : String)
  | emittedMessage (m : Message)
  | openedDialog (psbtx : PartiallySignedTransaction)
deriving DecidableEq, Repr

/-- Environment of `gotoLoadPSBT`: the clipboard, the file chooser, the
file system, and the external PSBT codec.
`decodeBase64 raw = none` models `DecodeRawPSBT`'s companion
`DecodeBase64(raw, &invalid)` setting `invalid = true`;
`decodeRawPSBT data = .error e` models `DecodeRawPSBT(psbtx, data, error)`
returning `false` with `error = e`. `openFileName = ""` models the user
cancelling `GUIUtil::getOpenFileName`. -/
structure PSBTEnv where
  clipboardText : String
  decodeBase64 : String → Option String
  openFileName : String
  fileSize : Nat
  fileContents : String
  decodeRawPSBT : String → Except String PartiallySignedTransaction

/-- `MAX_FILE_SIZE_PSBT` = 100 MiB (see the message
"PSBT file must be smaller than 100 MiB"). -/
def MAX_FILE_SIZE_PSBT : Nat := 100 * 1024 * 1024

/-- Modelled from the spec: `GetFileSize(path, max)` is an external helper
(it lives outside this file, with the other opaque services of the spec's
Section 1) that reads at most `max` bytes of the file and returns how many
bytes it saw, i.e. `min size max`; so it equals `max` exactly when the file
holds at least `max` bytes. -/
def GetFileSize (size maxSize : Nat) : Nat := min size maxSize

/-- The tail of `gotoLoadPSBT` after `data` has been assembled: call
`DecodeRawPSBT`; on failure emit one error message carrying the decoder's
error string and return; on success open a `PSBTOperationsDialog` with the
decoded transaction. -/
def psbtDecodeStep (env : PSBTEnv) (data : String) : List Event :=
  match env.decodeRawPSBT data with
  | .error e =>
      [.calledDecodeRawPSBT data,
       .emittedMessage ⟨tr "Error", tr "Unable to decode PSBT" ++ "\n" ++ e, .MSG_ERROR⟩]
  | .ok psbtx =>
      [.calledDecodeRawPSBT data, .openedDialog psbtx]

/-- `WalletView::gotoLoadPSBT(bool from_clipboard)` as an effect trace. -/
def gotoLoadPSBT (from_clipboard : Bool) (env : PSBTEnv) : List Event :=
  if from_clipboard then
    match env.decodeBase64 env.clipboardText with
    | none =>
        [.readClipboard, .calledDecodeBase64 env.clipboardText,
         .emittedMessage ⟨tr "Error",
           tr "Unable to decode PSBT from clipboard (invalid base64)", .MSG_ERROR⟩]
    | some data =>
        [.readClipboard, .calledDecodeBase64 env.clipboardText] ++ psbtDecodeStep env data
  else
    if env.openFileName = "" then []
    else if GetFileSize env.fileSize MAX_FILE_SIZE_PSBT = MAX_FILE_SIZE_PSBT then
      [.emittedMessage ⟨tr "Error", tr "PSBT file must be smaller than 100 MiB", .MSG_ERROR⟩]
    else
      [.readFile env.openFileName] ++ psbtDecodeStep env env.fileContents

/-- Recognises message-emission events in a trace. -/
def isMessage : Event → Bool
  | .emittedMessage _ => true
  | _ => false

/-- Recognises dialog-opening events in a trace. -/
def isDialog : Event → Bool
  | .openedDialog _ => true
  | _ => false

/-- One row of the transaction table, as read back through
`ttm->index(start, col, parent).data(...)` in `processNewTransaction`. -/
structure TxRow where
  date : String
  amount : Int
  txType : String
  address : String
  label : String
deriving DecidableEq, Repr

/-- Environment of `WalletView::processNewTransaction`. The Booleans
record whether the `walletModel` / `clientModel` pointers and the
transaction table model `ttm` are non-null; `rows start` is the table row
at index `start`; `htmlEscape` is the opaque `GUIUtil::HtmlEscape`. -/
structure TxEnv where
  walletModel : Bool
  clientModel : Bool
  isInitialBlockDownload : Bool
  ttm : Bool
  processingQueuedTransactions : Bool
  rows : Nat → TxRow
  getDisplayUnit : Int
  getWalletName : String
  htmlEscape : String → String

/-- Outcome of one `rowsInserted` notification: either nothing, or a
single `Q_EMIT incomingTransaction(...)` with its seven arguments. -/
inductive TxOutcome where
  | noSignal
  | incomingTransaction (date : String) (unit : Int) (amount : Int)
      (txType : String) (address : String) (label : String) (walletName : String)
deriving DecidableEq

/-- `WalletView::processNewTransaction(parent, start, end)`: guard against
missing models, initial block download, a missing table model and queued
processing; otherwise emit one `incomingTransaction` built from row
`start`. -/
def processNewTransaction (env : TxEnv) (start : Nat) : TxOutcome :=
  if !env.walletModel || !env.clientModel || env.isInitialBlockDownload then
    .noSignal
  else if !env.ttm || env.processingQueuedTransactions then
    .noSignal
  else
    let row := env.rows start
    .incomingTransaction row.date env.getDisplayUnit row.amount row.txType
      row.address (env.htmlEscape row.label) (env.htmlEscape env.getWalletName)

/-- The wallet backend reached through `walletModel->wallet()`: only
`backupWallet(path) -> bool` matters here. -/
structure WalletBackend where
  backupWallet : String → Bool

/-- Environment of `WalletView::backupWallet`: the filename chosen in
`GUIUtil::getSaveFileName` (`""` when the user cancels) and the
`walletModel` pointer (`none` when null). -/
structure BackupEnv where
  getSaveFileName : String
  walletModel : Option WalletBackend

/-- Observable effects of `backupWallet`. -/
inductive BackupEvent where
  | calledBackupWallet (filename : String)
  | emittedMessage (m : Message)
deriving DecidableEq

/-- Recognises `wallet().backupWallet(...)` calls in a backup trace. -/
def isCalledBackup : BackupEvent → Bool
  | .calledBackupWallet _ => true
  | _ => false

/-- The "Backup Failed" error message, with `.arg(filename)` substituted. -/
def backupFailedMessage (filename : String) : Message :=
  ⟨tr "Backup Failed",
   (tr "There was an error trying to save the wallet data to %1.").replace "%1" filename,
   .MSG_ERROR⟩

/-- The "Backup Successful" information message, with `.arg(filename)`
substituted. -/
def backupSuccessfulMessage (filename : String) : Message :=
  ⟨tr "Backup Successful",
   (tr "The wallet data was successfully saved to %1.").replace "%1" filename,
   .MSG_INFORMATION⟩

/-- `WalletView::backupWallet()`. The method dereferences `walletModel`
without a null check once a filename was chosen, so the result is `none`
(undefined behaviour, a null dereference) when the filename is non-empty
and `walletModel` is null; otherwise `some` of the effect trace. -/
def backupWallet (env : BackupEnv) : Option (List BackupEvent) :=
  let filename := env.getSaveFileName
  if filename = "" then some []
  else
    match env.walletModel with
    | none => none
    | some wm =>
        if !(wm.backupWallet filename) then
          some [.calledBackupWallet filename, .emittedMessage (backupFailedMessage filename)]
        else
          some [.calledBackupWallet filename, .emittedMessage (backupSuccessfulMessage filename)]

/-- The live `QProgressDialog` state that `showProgress` manipulates. -/
structure ProgressDialog where
  value : Int
  canceled : Bool
deriving DecidableEq, Repr

/-- Result of one `showProgress` call: the new `progressDialog` pointer
(`none` = null) and whether `wallet().abortRescan()` was called. -/
structure ShowProgressResult where
  progressDialog : Option ProgressDialog
  abortRescanCalled : Bool
deriving DecidableEq, Repr

/-- `WalletView::showProgress(title, nProgress)`. At 0 a fresh
application-modal dialog is created with value 0 (a fresh dialog is not
canceled); at 100 an existing dialog is closed and the pointer cleared;
otherwise, with a live dialog, a canceled dialog triggers
`wallet().abortRescan()` and a live one has its value set. -/
def showProgress (progressDialog : Option ProgressDialog) (nProgress : Int) :
    ShowProgressResult :=
  if nProgress = 0 then
    ⟨some { value := 0, canceled := false }, false⟩
  else if nProgress = 100 then
    match progressDialog with
    | some _ => ⟨none, false⟩
    | none => ⟨none, false⟩
  else
    match progressDialog with
    | some dlg =>
        if dlg.canceled then ⟨some dlg, true⟩
        else ⟨some { dlg with value := nProgress }, false⟩
    | none => ⟨none, false⟩

/-- The pages registered on the `QStackedWidget` in the constructor. -/
inductive Page where
  | overviewPage
  | transactionsPage
  | infinitynodeListPage
  | statsWindow
  | faqWindow
  | stakePage
deriving DecidableEq, Repr

/-- The widget state the navigation slots touch: the stacked widget's
current widget and the two toggles of the overview page. -/
structure ViewState where
  currentWidget : Page
  overviewTransactionWidgetShown : Bool
  overviewToolBoxWidgetShown : Bool
deriving DecidableEq, Repr

/-- `WalletView::gotoOverviewPage()`. -/
def gotoOverviewPage (s : ViewState) : ViewState :=
  { s with overviewTransactionWidgetShown := true,
           overviewToolBoxWidgetShown := false,
           currentWidget := .overviewPage }

/-- `WalletView::gotoHomePage()`. -/
def gotoHomePage (s : ViewState) : ViewState :=
  { s with overviewTransactionWidgetShown := false,
           overviewToolBoxWidgetShown := true,
           currentWidget := .overviewPage }

/-- `WalletView::gotoHistoryPage()`. -/
def gotoHistoryPage (s : ViewState) : ViewState :=
  { s with currentWidget := .transactionsPage }

/-- `WalletView::gotoInfinitynodePage()`. -/
def gotoInfinitynodePage (s : ViewState) : ViewState :=
  { s with currentWidget := .infinitynodeListPage }

/-- `WalletView::gotoStatsPage()`. -/
def gotoStatsPage (s : ViewState) : ViewState :=
  { s with currentWidget := .statsWindow }

/-- `WalletView::gotoFaqPage()`. -/
def gotoFaqPage (s : ViewState) : ViewState :=
  { s with currentWidget := .faqWindow }

/-- `WalletView::gotoStakePage()`. -/
def gotoStakePage (s : ViewState) : ViewState :=
  { s with currentWidget := .stakePage }

/-- Dialog effects of the receive/send navigation slots. -/
inductive PageAction where
  | shownReceiveDialog
  | shownSendDialog
  | setAddress (addr : String)
deriving DecidableEq, Repr

/-- The `walletFrame` gate: `none` models a null `walletFrame` pointer,
`some b` a non-null one with `b = (walletFrame->currentWalletView() == this)`. -/
abbrev WalletFrameEnv := Option Bool

/-- `WalletView::gotoReceiveCoinsPage()`. -/
def gotoReceiveCoinsPage (walletFrame : WalletFrameEnv) (s : ViewState) :
    ViewState × List PageAction :=
  let s2 := { s with currentWidget := Page.overviewPage }
  match walletFrame with
  | some true => (s2, [.shownReceiveDialog])
  | _ => (s2, [])

/-- `WalletView::gotoSendCoinsPage(QString addr)`. -/
def gotoSendCoinsPage (walletFrame : WalletFrameEnv) (addr : String) (s : ViewState) :
    ViewState × List PageAction :=
  let s2 := { s with currentWidget := Page.overviewPage }
  match walletFrame with
  | some true =>
      (s2, (if !(addr = "") then [PageAction.setAddress addr] else []) ++ [.shownSendDialog])
  | _ => (s2, [])

/-- `WalletModel::EncryptionStatus` as queried by `unlockWallet`. -/
inductive EncryptionStatus where
  | Unencrypted
  | Locked
  | Unlocked
deriving DecidableEq, Repr

/-- What the wallet-management slots read from `walletModel`. -/
structure WalletModelState where
  getEncryptionStatus : EncryptionStatus
deriving DecidableEq, Repr

/-- Modes of `AskPassphraseDialog`. -/
inductive AskMode where
  | Encrypt
  | Unlock
  | ChangePass
deriving DecidableEq, Repr

/-- Observable effects of the wallet-management slots. -/
inductive WalletAction where
  | openedAskPassphraseDialog (mode : AskMode)
  | emittedEncryptionStatusChanged
  | setWalletLocked (locked : Bool)
  | broughtToFrontSendingAddresses
  | broughtToFrontReceivingAddresses
deriving DecidableEq, Repr

/-- `WalletView::encryptWallet()`: guarded on a null `walletModel`; opens
the Encrypt passphrase dialog then calls `updateEncryptionStatus()`, which
emits `encryptionStatusChanged`. -/
def encryptWallet (walletModel : Option WalletModelState) : List WalletAction :=
  match walletModel with
  | none => []
  | some _ => [.openedAskPassphraseDialog .Encrypt, .emittedEncryptionStatusChanged]

/-- `WalletView::unlockWallet()`: guarded on a null `walletModel`; opens
the Unlock passphrase dialog only when the wallet reports `Locked`. -/
def unlockWallet (walletModel : Option WalletModelState) : List WalletAction :=
  match walletModel with
  | none => []
  | some wm =>
      if wm.getEncryptionStatus = .Locked then
        [.openedAskPassphraseDialog .Unlock]
      else []

/-- `WalletView::lockWallet()`: guarded on a null `walletModel`; calls
`setWalletLocked(true)`. -/
def lockWallet (walletModel : Option WalletModelState) : List WalletAction :=
  match walletModel with
  | none => []
  | some _ => [.setWalletLocked true]

/-- `WalletView::usedSendingAddresses()`: guarded on a null `walletModel`;
brings the sending address book to the front. -/
def usedSendingAddresses (walletModel : Option WalletModelState) : List WalletAction :=
  match walletModel with
  | none => []
  | some _ => [.broughtToFrontSendingAddresses]

/-- `WalletView::usedReceivingAddresses()`: guarded on a null `walletModel`;
brings the receiving address book to the front. -/
def usedReceivingAddresses (walletModel : Option WalletModelState) : List WalletAction :=
  match walletModel with
  | none => []
  | some _ => [.broughtToFrontReceivingAddresses]

/-- Concrete environment: clipboard decodes to `"D"`, which the PSBT
decoder rejects with error string `"badmagic"`. -/
def envC1 : PSBTEnv :=
  ⟨"clip", fun _ => some "D", "", 0, "", fun _ => .error "badmagic"⟩

/-- Concrete environment: the clipboard text is not valid base64. -/
def envC2 : PSBTEnv :=
  ⟨"notb64", fun _ => none, "", 0, "", fun _ => .error "e"⟩

/-- Concrete environment: a chosen file of exactly 100 MiB. -/
def envC3 : PSBTEnv :=
  ⟨"", fun _ => some "", "big.psbt", MAX_FILE_SIZE_PSBT, "", fun _ => .ok ⟨0⟩⟩

/-- Concrete environment: both models set, not in initial block download,
table model present and idle. -/
def envC4 : TxEnv :=
  { walletModel := true, clientModel := true, isInitialBlockDownload := false,
    ttm := true, processingQueuedTransactions := false,
    rows := fun _ => ⟨"2024-01-01", 5, "Received with", "SinAddr", "mylabel"⟩,
    getDisplayUnit := 0, getWalletName := "wallet-1", htmlEscape := fun s => s }

/-- Concrete environment: a wallet model whose backend backup fails. -/
def envC5 : BackupEnv :=
  ⟨"wallet-backup.dat", some ⟨fun _ => false⟩⟩

end WalletView

namespace WalletView

/-- Claim C2: when loading a PSBT from the clipboard and the clipboard
text is not valid base64, `gotoLoadPSBT` emits exactly one error message
("Unable to decode PSBT from clipboard (invalid base64)") and returns
without calling `DecodeRawPSBT` and without opening any dialog. -/
theorem claim_C2 (env : PSBTEnv) (h : env.decodeBase64 env.clipboardText = none) :
    gotoLoadPSBT true env =
      [Event.readClipboard, Event.calledDecodeBase64 env.clipboardText,
       Event.emittedMessage
         ⟨tr "Error", tr "Unable to decode PSBT from clipboard (invalid base64)",
          MsgLevel.MSG_ERROR⟩] ∧
    (∀ d, Event.calledDecodeRawPSBT d ∉ gotoLoadPSBT true env) ∧
    (∀ p, Event.openedDialog p ∉ gotoLoadPSBT true env) ∧
    ((gotoLoadPSBT true env).filter isMessage).length = 1 := by
  have ht : gotoLoadPSBT true env =
      [Event.readClipboard, Event.calledDecodeBase64 env.clipboardText,
       Event.emittedMessage
         ⟨tr "Error", tr "Unable to decode PSBT from clipboard (invalid base64)",
          MsgLevel.MSG_ERROR⟩] := by
    simp [gotoLoadPSBT, h]
  refine ⟨ht, ?_, ?_, ?_⟩
  · intro d hd
    rw [ht] at hd
    simp at hd
  · intro p hp
    rw [ht] at hp
    simp at hp
  · rw [ht]
    rfl

/-- Claim C2, instantiated: a concrete invalid-base64 clipboard yields
exactly the single error trace. -/
theorem claim_C2_witness :
    gotoLoadPSBT true envC2 =
      [Event.readClipboard, Event.calledDecodeBase64 "notb64",
       Event.emittedMessage
         ⟨tr "Error", tr "Unable to decode PSBT from clipboard (invalid base64)",
          MsgLevel.MSG_ERROR⟩] :=
  (claim_C2 envC2 rfl).1

/-- Claim C3: on the file path, a cancelled file dialog (empty filename)
produces no effect at all, and a file of size at least
`MAX_FILE_SIZE_PSBT` produces exactly the "PSBT file must be smaller than
100 MiB" error message, without reading the file and without calling
`DecodeRawPSBT`. -/
theorem claim_C3 (env : PSBTEnv) :
    (env.openFileName = "" → gotoLoadPSBT false env = []) ∧
    (env.openFileName ≠ "" → MAX_FILE_SIZE_PSBT ≤ env.fileSize →
      gotoLoadPSBT false env =
        [Event.emittedMessage
          ⟨tr "Error", tr "PSBT file must be smaller than 100 MiB", MsgLevel.MSG_ERROR⟩] ∧
      (∀ f, Event.readFile f ∉ gotoLoadPSBT false env) ∧
      (∀ d, Event.calledDecodeRawPSBT d ∉ gotoLoadPSBT false env)) := by
  constructor
  · intro h
    simp [gotoLoadPSBT, h]
  · intro h1 h2
    have hsz : GetFileSize env.fileSize MAX_FILE_SIZE_PSBT = MAX_FILE_SIZE_PSBT :=
      min_eq_right h2
    have ht : gotoLoadPSBT false env =
        [Event.emittedMessage
          ⟨tr "Error", tr "PSBT file must be smaller than 100 MiB", MsgLevel.MSG_ERROR⟩] := by
      simp [gotoLoadPSBT, h1, hsz]
    refine ⟨ht, ?_, ?_⟩ <;> intro x hx <;> rw [ht] at hx <;> simp at hx

/-- Claim C3, instantiated: a concrete 100 MiB file is rejected with the
single size-limit error message. -/
theorem claim_C3_witness :
    gotoLoadPSBT false envC3 =
      [Event.emittedMessage
        ⟨tr "Error", tr "PSBT file must be smaller than 100 MiB", MsgLevel.MSG_ERROR⟩] :=
  ((claim_C3 envC3).2 (by decide) (le_refl _)).1

/-- Claim C7: each page-navigation slot only switches the stacked
widget's current widget to its page, leaving the overview toggles alone;
`gotoOverviewPage` and `gotoHomePage` both make the overview page current,
the former showing the transaction widget and hiding the toolbox widget,
the latter the opposite. -/
theorem claim_C7 (s : ViewState) :
    ((gotoHistoryPage s).currentWidget = Page.transactionsPage ∧
     (gotoHistoryPage s).overviewTransactionWidgetShown = s.overviewTransactionWidgetShown ∧
     (gotoHistoryPage s).overviewToolBoxWidgetShown = s.overviewToolBoxWidgetShown) ∧
    ((gotoInfinitynodePage s).currentWidget = Page.infinitynodeListPage ∧
     (gotoInfinitynodePage s).overviewTransactionWidgetShown = s.overviewTransactionWidgetShown ∧
     (gotoInfinitynodePage s).overviewToolBoxWidgetShown = s.overviewToolBoxWidgetShown) ∧
    ((gotoStatsPage s).currentWidget = Page.statsWindow ∧
     (gotoStatsPage s).overviewTransactionWidgetShown = s.overviewTransactionWidgetShown ∧
     (gotoStatsPage s).overviewToolBoxWidgetShown = s.overviewToolBoxWidgetShown) ∧
    ((gotoFaqPage s).currentWidget = Page.faqWindow ∧
     (gotoFaqPage s).overviewTransactionWidgetShown = s.overviewTransactionWidgetShown ∧
     (gotoFaqPage s).overviewToolBoxWidgetShown = s.overviewToolBoxWidgetShown) ∧
    ((gotoStakePage s).currentWidget = Page.stakePage ∧
     (gotoStakePage s).overviewTransactionWidgetShown = s.overviewTransactionWidgetShown ∧
     (gotoStakePage s).overviewToolBoxWidgetShown = s.overviewToolBoxWidgetShown) ∧
    ((gotoOverviewPage s).currentWidget = Page.overviewPage ∧
     (gotoOverviewPage s).overviewTransactionWidgetShown = true ∧
     (gotoOverviewPage s).overviewToolBoxWidgetShown = false) ∧
    ((gotoHomePage s).currentWidget = Page.overviewPage ∧
     (gotoHomePage s).overviewTransactionWidgetShown = false ∧
     (gotoHomePage s).overviewToolBoxWidgetShown = true) :=
  ⟨⟨rfl, rfl, rfl⟩, ⟨rfl, rfl, rfl⟩, ⟨rfl, rfl, rfl⟩, ⟨rfl, rfl, rfl⟩,
   ⟨rfl, rfl, rfl⟩, ⟨rfl, rfl, rfl⟩, ⟨rfl, rfl, rfl⟩⟩

/-- Claim C8: with a null `walletModel`, `encryptWallet`, `unlockWallet`,
`lockWallet`, `usedSendingAddresses` and `usedReceivingAddresses` return
immediately with no effect, while `backupWallet` with a non-empty chosen
filename dereferences the null `walletModel` (modelled as result `none`). -/
theorem claim_C8 :
    encryptWallet none = [] ∧ unlockWallet none = [] ∧ lockWallet none = [] ∧
    usedSendingAddresses none = [] ∧ usedReceivingAddresses none = [] ∧
    ∀ env : BackupEnv, env.getSaveFileName ≠ "" → env.walletModel = none →
      backupWallet env = none := by
  refine ⟨rfl, rfl, rfl, rfl, rfl, ?_⟩
  intro env h1 h2
  simp [backupWallet, h1, h2]

/-- Claim C8, instantiated: backing up to a concrete filename with a null
wallet model hits the null dereference. -/
theorem claim_C8_witness :
    backupWallet ⟨"wallet-backup.dat", none⟩ = none :=
  claim_C8.2.2.2.2.2 ⟨"wallet-backup.dat", none⟩ (by decide) rfl

/-- Claim C9: `unlockWallet` opens the Unlock passphrase dialog exactly
when `walletModel` is non-null and reports `Locked`; in every other case
it does nothing. -/
theorem claim_C9 (wm : Option WalletModelState) :
    (unlockWallet wm = [WalletAction.openedAskPassphraseDialog AskMode.Unlock] ↔
      ∃ st, wm = some st ∧ st.getEncryptionStatus = EncryptionStatus.Locked) ∧
    ((¬ ∃ st, wm = some st ∧ st.getEncryptionStatus = EncryptionStatus.Locked) →
      unlockWallet wm = []) := by
  cases wm with
  | none => simp [unlockWallet]
  | some st =>
    cases st with
    | mk status =>
      cases status <;> simp [unlockWallet]

/-- Claim C9, instantiated: a locked wallet model makes `unlockWallet`
open the Unlock dialog. -/
theorem claim_C9_witness :
    unlockWallet (some ⟨EncryptionStatus.Locked⟩) =
      [WalletAction.openedAskPassphraseDialog AskMode.Unlock] :=
  (claim_C9 (some ⟨EncryptionStatus.Locked⟩)).1.mpr ⟨⟨EncryptionStatus.Locked⟩, rfl, rfl⟩

/-- Claim C10: `gotoReceiveCoinsPage` and `gotoSendCoinsPage` always make
the overview page current; they show their dialog exactly when
`walletFrame` is non-null and this view is the current wallet view, and
`gotoSendCoinsPage` sets the address exactly when additionally the address
is non-empty. -/
theorem claim_C10 (walletFrame : WalletFrameEnv) (addr : String) (s : ViewState) :
    ((gotoReceiveCoinsPage walletFrame s).1.currentWidget = Page.overviewPage) ∧
    ((gotoSendCoinsPage walletFrame addr s).1.currentWidget = Page.overviewPage) ∧
    (PageAction.shownReceiveDialog ∈ (gotoReceiveCoinsPage walletFrame s).2 ↔
      walletFrame = some true) ∧
    (PageAction.shownSendDialog ∈ (gotoSendCoinsPage walletFrame addr s).2 ↔
      walletFrame = some true) ∧
    (PageAction.setAddress addr ∈ (gotoSendCoinsPage walletFrame addr s).2 ↔
      (addr ≠ "" ∧ walletFrame = some true)) := by
  rcases walletFrame with _ | b
  · by_cases ha : addr = "" <;>
      simp [gotoReceiveCoinsPage, gotoSendCoinsPage, ha]
  · cases b <;> by_cases ha : addr = "" <;>
      simp [gotoReceiveCoinsPage, gotoSendCoinsPage, ha]

/-- Claim C10, instantiated: with a live frame showing this view and a
non-empty address, the send dialog receives the address. -/
theorem claim_C10_witness :
    PageAction.setAddress "sin1abc" ∈
      (gotoSendCoinsPage (some true) "sin1abc" ⟨Page.overviewPage, true, false⟩).2 :=
  (claim_C10 (some true) "sin1abc" ⟨Page.overviewPage, true, false⟩).2.2.2.2.mpr
    ⟨by decide, rfl⟩

/-- After a prefix with no messages, no dialog openings and no decode
calls, the decode step behaves as C1 describes: one error message carrying
the decoder's error string on failure, a dialog with the decoded
transaction on success. -/
theorem psbtDecodeStep_spec (env : PSBTEnv) (pre : List Event) (data d : String)
    (hm : pre.filter isMessage = [])
    (hdlg : ∀ p, Event.openedDialog p ∉ pre)
    (hdec : ∀ x, Event.calledDecodeRawPSBT x ∉ pre)
    (hd : Event.calledDecodeRawPSBT d ∈ pre ++ psbtDecodeStep env data) :
    (∀ e, env.decodeRawPSBT d = .error e →
      ((pre ++ psbtDecodeStep env data).filter isMessage).length = 1 ∧
      (∃ m, Event.emittedMessage m ∈ pre ++ psbtDecodeStep env data ∧
        m.level = MsgLevel.MSG_ERROR ∧ ∃ a, m.body = a ++ e) ∧
      (∀ p, Event.openedDialog p ∉ pre ++ psbtDecodeStep env data)) ∧
    (∀ p, env.decodeRawPSBT d = .ok p →
      Event.openedDialog p ∈ pre ++ psbtDecodeStep env data ∧
      (pre ++ psbtDecodeStep env data).filter isMessage = []) := by
  have hdd : d = data := by
    rcases List.mem_append.mp hd with h | h
    · exact absurd h (hdec d)
    · unfold psbtDecodeStep at h
      cases hr : env.decodeRawPSBT data <;> rw [hr] at h <;> simpa using h
  subst hdd
  constructor
  · intro e he
    refine ⟨?_, ?_, ?_⟩
    · rw [List.filter_append, hm]
      simp [psbtDecodeStep, he, isMessage]
    · refine ⟨⟨tr "Error", tr "Unable to decode PSBT" ++ "\n" ++ e, MsgLevel.MSG_ERROR⟩,
        ?_, rfl, ⟨tr "Unable to decode PSBT" ++ "\n", rfl⟩⟩
      exact List.mem_append_right _ (by simp [psbtDecodeStep, he])
    · intro p hp
      rcases List.mem_append.mp hp with hq | hq
      · exact hdlg p hq
      · simp [psbtDecodeStep, he] at hq
  · intro p hp2
    refine ⟨List.mem_append_right _ (by simp [psbtDecodeStep, hp2]), ?_⟩
    rw [List.filter_append, hm]
    simp [psbtDecodeStep, hp2, isMessage]

/-- Claim C1: whenever `gotoLoadPSBT` reaches the `DecodeRawPSBT` call on
the assembled data, a decode failure yields exactly one error message
whose text ends with the decoder's error string and no dialog is opened,
while a decode success opens a dialog with the decoded partially signed
transaction (and emits no message). -/
theorem claim_C1 (fc : Bool) (env : PSBTEnv) (d : String)
    (hd : Event.calledDecodeRawPSBT d ∈ gotoLoadPSBT fc env) :
    (∀ e, env.decodeRawPSBT d = .error e →
      ((gotoLoadPSBT fc env).filter isMessage).length = 1 ∧
      (∃ m, Event.emittedMessage m ∈ gotoLoadPSBT fc env ∧
        m.level = MsgLevel.MSG_ERROR ∧ ∃ a, m.body = a ++ e) ∧
      (∀ p, Event.openedDialog p ∉ gotoLoadPSBT fc env)) ∧
    (∀ p, env.decodeRawPSBT d = .ok p →
      Event.openedDialog p ∈ gotoLoadPSBT fc env ∧
      (gotoLoadPSBT fc env).filter isMessage = []) := by
  cases fc with
  | true =>
    cases hb : env.decodeBase64 env.clipboardText with
    | none =>
      simp [gotoLoadPSBT, hb] at hd
    | some data =>
      have ht : gotoLoadPSBT true env =
          [Event.readClipboard, Event.calledDecodeBase64 env.clipboardText] ++
            psbtDecodeStep env data := by
        simp [gotoLoadPSBT, hb]
      rw [ht] at hd ⊢
      exact psbtDecodeStep_spec env _ data d rfl
        (by intro p hp; simp at hp) (by intro x hx; simp at hx) hd
  | false =>
    by_cases h1 : env.openFileName = ""
    · simp [gotoLoadPSBT, h1] at hd
    · by_cases h2 : GetFileSize env.fileSize MAX_FILE_SIZE_PSBT = MAX_FILE_SIZE_PSBT
      · simp [gotoLoadPSBT, h1, h2] at hd
      · have ht : gotoLoadPSBT false env =
            [Event.readFile env.openFileName] ++ psbtDecodeStep env env.fileContents := by
          simp [gotoLoadPSBT, h1, h2]
        rw [ht] at hd ⊢
        exact psbtDecodeStep_spec env _ env.fileContents d rfl
          (by intro p hp; simp at hp) (by intro x hx; simp at hx) hd

/-- Claim C1, instantiated: a clipboard decoding to data that the PSBT
decoder rejects with `"badmagic"` yields one error message ending in
`"badmagic"`. -/
theorem claim_C1_witness :
    ((gotoLoadPSBT true envC1).filter isMessage).length = 1 ∧
    (∃ m, Event.emittedMessage m ∈ gotoLoadPSBT true envC1 ∧
      m.level = MsgLevel.MSG_ERROR ∧ ∃ a, m.body = a ++ "badmagic") := by
  have h := (claim_C1 true envC1 "D" (by decide)).1 "badmagic" rfl
  exact ⟨h.1, h.2.1⟩

/-- Claim C4: `processNewTransaction` is silent whenever a model is
missing, the node is in initial block download, the table model is absent
or it is processing queued transactions; otherwise it emits one
`incomingTransaction` signal built from row `start` (with the label
HTML-escaped). -/
theorem claim_C4 (env : TxEnv) (start : Nat) :
    ((env.walletModel = false ∨ env.clientModel = false ∨
      env.isInitialBlockDownload = true ∨ env.ttm = false ∨
      env.processingQueuedTransactions = true) →
        processNewTransaction env start = TxOutcome.noSignal) ∧
    (env.walletModel = true → env.clientModel = true →
     env.isInitialBlockDownload = false → env.ttm = true →
     env.processingQueuedTransactions = false →
        processNewTransaction env start =
          TxOutcome.incomingTransaction (env.rows start).date env.getDisplayUnit
            (env.rows start).amount (env.rows start).txType (env.rows start).address
            (env.htmlEscape (env.rows start).label)
            (env.htmlEscape env.getWalletName)) := by
  constructor
  · intro h
    cases hw : env.walletModel <;> cases hc : env.clientModel <;>
      cases hi : env.isInitialBlockDownload <;> cases htm : env.ttm <;>
      cases hp : env.processingQueuedTransactions <;>
      simp_all [processNewTransaction]
  · intro h1 h2 h3 h4 h5
    simp [processNewTransaction, h1, h2, h3, h4, h5]

/-- Claim C4, instantiated: with both models set, no initial block
download and an idle table model, row 0 is reported. -/
theorem claim_C4_witness :
    processNewTransaction envC4 0 =
      TxOutcome.incomingTransaction "2024-01-01" 0 5 "Received with" "SinAddr"
        "mylabel" "wallet-1" :=
  (claim_C4 envC4 0).2 rfl rfl rfl rfl rfl

/-- Claim C5: `backupWallet` does nothing on an empty chosen filename;
with a wallet model and a non-empty filename it calls the backend's
`backupWallet` exactly once and emits the "Backup Failed" error message
exactly when that call returns false, the "Backup Successful" information
message exactly when it returns true. -/
theorem claim_C5 (env : BackupEnv) :
    (env.getSaveFileName = "" → backupWallet env = some []) ∧
    (∀ wm, env.walletModel = some wm → env.getSaveFileName ≠ "" →
      ∃ l, backupWallet env = some l ∧
        l.filter isCalledBackup = [BackupEvent.calledBackupWallet env.getSaveFileName] ∧
        (BackupEvent.emittedMessage (backupFailedMessage env.getSaveFileName) ∈ l ↔
          wm.backupWallet env.getSaveFileName = false) ∧
        (BackupEvent.emittedMessage (backupSuccessfulMessage env.getSaveFileName) ∈ l ↔
          wm.backupWallet env.getSaveFileName = true)) := by
  constructor
  · intro h
    simp [backupWallet, h]
  · intro wm hwm hne
    cases hb : wm.backupWallet env.getSaveFileName with
    | false =>
      refine ⟨[BackupEvent.calledBackupWallet env.getSaveFileName,
               BackupEvent.emittedMessage (backupFailedMessage env.getSaveFileName)],
              ?_, ?_, ?_, ?_⟩
      · simp [backupWallet, hwm, hne, hb]
      · simp [isCalledBackup]
      · simp [hb]
      · simp [backupFailedMessage, backupSuccessfulMessage, hb]
    | true =>
      refine ⟨[BackupEvent.calledBackupWallet env.getSaveFileName,
               BackupEvent.emittedMessage (backupSuccessfulMessage env.getSaveFileName)],
              ?_, ?_, ?_, ?_⟩
      · simp [backupWallet, hwm, hne, hb]
      · simp [isCalledBackup]
      · simp [backupFailedMessage, backupSuccessfulMessage, hb]
      · simp [hb]

/-- Claim C5, instantiated: a backend whose backup fails produces exactly
one backend call and the "Backup Failed" message. -/
theorem claim_C5_witness :
    ∃ l, backupWallet envC5 = some l ∧
      l.filter isCalledBackup = [BackupEvent.calledBackupWallet envC5.getSaveFileName] ∧
      (BackupEvent.emittedMessage (backupFailedMessage envC5.getSaveFileName) ∈ l ↔
        WalletBackend.backupWallet ⟨fun _ => false⟩ envC5.getSaveFileName = false) ∧
      (BackupEvent.emittedMessage (backupSuccessfulMessage envC5.getSaveFileName) ∈ l ↔
        WalletBackend.backupWallet ⟨fun _ => false⟩ envC5.getSaveFileName = true) :=
  (claim_C5 envC5).2 ⟨fun _ => false⟩ rfl (by decide)

/-- Claim C6: `showProgress` creates a fresh dialog at value 0 on
`nProgress = 0`, closes and clears the dialog on `nProgress = 100`, and on
any other value with a live dialog calls `wallet().abortRescan()` exactly
when the dialog was canceled, otherwise setting the dialog's value;
`abortRescan` is never called at 0, at 100, or without a dialog. -/
theorem claim_C6 (pd : Option ProgressDialog) (n : Int) :
    (n = 0 → showProgress pd n = ⟨some { value := 0, canceled := false }, false⟩) ∧
    (n = 100 → showProgress pd n = ⟨none, false⟩) ∧
    (∀ dlg, pd = some dlg → n ≠ 0 → n ≠ 100 →
      ((showProgress pd n).abortRescanCalled = true ↔ dlg.canceled = true) ∧
      (dlg.canceled = false →
        (showProgress pd n).progressDialog = some { dlg with value := n })) ∧
    ((showProgress pd n).abortRescanCalled = true →
      n ≠ 0 ∧ n ≠ 100 ∧ ∃ dlg, pd = some dlg ∧ dlg.canceled = true) := by
  refine ⟨?_, ?_, ?_, ?_⟩
  · intro h
    simp [showProgress, h]
  · intro h
    subst h
    cases pd <;> simp [showProgress]
  · intro dlg hdlg h0 h100
    subst hdlg
    cases hc : dlg.canceled <;> simp [showProgress, h0, h100, hc]
  · intro h
    rcases pd with _ | dlg
    · by_cases h0 : n = 0
      · simp [showProgress, h0] at h
      · by_cases h100 : n = 100
        · simp [showProgress, h0, h100] at h
        · simp [showProgress, h0, h100] at h
    · by_cases h0 : n = 0
      · simp [showProgress, h0] at h
      · by_cases h100 : n = 100
        · simp [showProgress, h0, h100] at h
        · cases hc : dlg.canceled
          · simp [showProgress, h0, h100, hc] at h
          · exact ⟨h0, h100, dlg, rfl, hc⟩

/-- Claim C6, instantiated: at progress 50 with a canceled live dialog,
`abortRescan` is called. -/
theorem claim_C6_witness :
    (showProgress (some ⟨55, true⟩) 50).abortRescanCalled = true := by
  have h := (claim_C6 (some ⟨55, true⟩) 50).2.2.1 ⟨55, true⟩ rfl (by decide) (by decide)
  exact h.1.mpr rfl

end WalletView
